import Mathlib

/-!
# Verification of the extinction-law core of `astropysics.obstools`

Shallow embedding of the `Extinction` class family from
`src/astropysics/obstools.py` (lines 791-1135): the base class with its
photometric operations and pipeline-element methods, the `_EBmVExtinction`
color-excess normalization, the Fitzpatrick-Massa template law
(`FMExtinction`) and the Cardelli/CCM piecewise law (`CardelliExtinction`).

Python floats are modelled as real numbers; numpy arrays as lists of reals;
Python exceptions as an error type carried through `Except`.  Stateful
methods are modelled by explicit state passing; since a Python method that
raises can leave earlier mutations behind, fallible stateful methods
return `Except (PyError × State) (Result × State)` so the state at the
moment an exception propagates is visible.
-/

namespace Obstools

/-- Python exceptions raised by the embedded code, tagged with their message. -/
inductive PyError
  | valueError (msg : String)
  | typeError (msg : String)
  | nameError (msg : String)
  | lookupError (msg : String)
  | indexError (msg : String)
  | notImplementedError (msg : String)
  | pipelineError (msg : String)
  deriving DecidableEq

/-- `True` exactly for Python `ValueError` (the "ValueError-class" of the spec). -/
def PyError.isValueErrorClass : PyError → Bool
  | .valueError _ => true
  | _ => false

/-! ## The external `Spectrum` collaborator -/

/-- Modelled from the spec: the external `Spectrum` collaborator (spec §6,
`astropysics.spec`, not under `src/`) — ordered wavelength, flux and error
sequences of equal length plus a mutable unit tag with a
"wavelength-angstrom" mode.  Wavelengths are stored canonically in
angstroms; the unit tag is a relabeling, and the core only ever reads the
wavelength axis while the tag is set to "wavelength-angstrom", so only
that view is modelled. -/
structure Spectrum where
  xAng : List ℝ
  flux : List ℝ
  err : List ℝ
  unit : String

/-- Modelled from the spec: `Spectrum.copy` returns an independent copy
(the model is pure, so the copy is the same value; the copy-vs-in-place
distinction is captured by `correctSpectrum` returning both the result and
the final state of its argument). -/
def Spectrum.copy (s : Spectrum) : Spectrum := s

/-- Modelled from the spec: reassigning the unit tag.  With canonical
angstrom storage the tag is a label; conversion to other units is never
read by the core. -/
def Spectrum.setUnit (s : Spectrum) (u : String) : Spectrum := { s with unit := u }

/-- The wavelength view `spec.x`, read by the core only while the unit tag
is "wavelength-angstrom", where it equals the canonical angstrom data. -/
def Spectrum.x (s : Spectrum) : List ℝ := s.xAng

/-! ## `Extinction.__init__` (lines 803-811)

The constructor takes an optional extinction function `f`.  The source
reads:

    if f is not None:
        if not callable(f):
            self.f = f
        else:
            raise ValueError('function must be a callable')

so the callable test is inverted: a callable argument raises, a
non-callable one is stored. -/

/-- A Python object passed as the `f` argument: either a callable
(modelled by its graph on reals) or some non-callable object (modelled by
a string tag). -/
inductive PyFuncArg
  | callable (g : ℝ → ℝ)
  | notCallable (v : String)

/-- What ended up stored in the instance by `__init__`: the `f` slot
(`none` when the argument was `None`, so the class-level abstract `f`
stays visible) and the normalization `A0`. -/
structure ExtinctionInitState where
  fSlot : Option PyFuncArg
  A0 : ℝ

/-- Embedding of `Extinction.__init__(f=None, A0=1)`, lines 803-811. -/
def ExtinctionInit (f : Option PyFuncArg) (A0 : ℝ) :
    Except PyError ExtinctionInitState :=
  match f with
  | none => .ok ⟨none, A0⟩
  | some arg =>
    match arg with
    | .callable _ => .error (.valueError "function must be a callable")
    | .notCallable v => .ok ⟨some (.notCallable v), A0⟩

/-! ## Pipeline-element methods (lines 966-1002)

The buffer is `self._plbuffer`, lazily initialized to
`{'in': [], 'out': []}`; `None` models the unallocated state. -/

/-- The two-queue pipeline buffer: `'in'` holds tagged `(kind, payload)`
entries, `'out'` holds corrected spectra. -/
structure PLBuffer where
  pin : List (String × Spectrum)
  pout : List Spectrum

/-- Embedding of `Extinction._plClear` (lines 1001-1002): the buffer is
reset to the unallocated state. -/
def plClear (_buf : Option PLBuffer) : Option PLBuffer := none

/-- Python 2 comparison of a list with an int (`self._plbuffer['out'] < 1`
on line 996): in Python 2 numbers compare smaller than any list, so
`list < int` is `False` for every list. -/
def py2ListLtInt (_l : List Spectrum) (_n : Int) : Bool := false

/-- Python `len` applied to a `bool` raises
`TypeError: object of type 'bool' has no len()`. -/
def py2LenBool (_b : Bool) : Except PyError Nat :=
  .error (.typeError "object of type 'bool' has no len()")

/-- Embedding of `Extinction._plExtract` (lines 992-999).  The source tests
`if len(self._plbuffer['out']<1):` — i.e. `len` of the *comparison*
`out < 1`, not `len(out) < 1` — so the guard itself raises `TypeError`
before any entry can be returned. -/
def plExtract (buf : Option PLBuffer) :
    Except PyError (Option Spectrum × Option PLBuffer) := do
  let b := buf.getD ⟨[], []⟩
  let n ← py2LenBool (py2ListLtInt b.pout 1)
  if n != 0 then
    pure (none, some b)
  else
    match b.pout with
    | [] => pure (none, some b)
    | s :: rest => pure (some s, some ⟨b.pin, rest⟩)

/-- Embedding of `Extinction._plProcess` (lines 977-990).  `correct`
stands for `self.correctSpectrum`, which may raise (e.g. a `DomainError`
from the law's `f`).  The `try` body pops the oldest pending entry and on
success appends the corrected spectrum to `'out'`; the bare `except:`
handler executes `self.insert(0,spec(type,data))`, but no name `spec` is
in scope in `_plProcess` (and `Extinction` has no `insert` method), so
the handler itself raises `NameError` and the popped entry is lost. -/
def plProcess (correct : Spectrum → Except PyError Spectrum)
    (buf : Option PLBuffer) :
    Except (PyError × Option PLBuffer) (Option PLBuffer) :=
  let b := buf.getD ⟨[], []⟩
  match b.pin with
  | [] => .error (.indexError "pop from empty list", some b)
  | (ty, data) :: rest =>
    if ty = "spec" then
      match correct data with
      | .ok newspec => .ok (some ⟨rest, b.pout ++ [newspec]⟩)
      | .error _ =>
        .error (.nameError "global name 'spec' is not defined", some ⟨rest, b.pout⟩)
    else
      -- the `assert False` branch also lands in the broken handler
      .error (.nameError "global name 'spec' is not defined", some ⟨rest, b.pout⟩)

/-! ## Photometric operations on the base class -/

/-- One operand of `Extinction.correctColor`'s per-band resolution: a band
name string or a numeric wavelength. -/
inductive BandOperand
  | bname (s : String)
  | wl (w : ℝ)

/-- The `bands` argument of `correctColor`: either a length-2 sequence of
band names / wavelengths, or a string form. -/
inductive BandsArg
  | pair (b1 b2 : BandOperand)
  | str (s : String)

/-- Modelled from the spec: the external band lookup `phot.bandwl`
(spec §6; `astropysics.phot` is not under `src/`), a read-only mapping
from band-name string to representative wavelength in angstroms with at
least the `"B"` and `"V"` entries; a miss is a `LookupError`. -/
def bandwl (s : String) : Option ℝ :=
  if s = "U" then some 3650
  else if s = "B" then some 4450
  else if s = "V" then some 5510
  else if s = "R" then some 6580
  else if s = "I" then some 8060
  else none

/-- Python `str.replace`, on explicit character lists: every occurrence
of `pat` (scanning left to right) is replaced by `rep`. -/
def pyReplace (s pat rep : List Char) : List Char :=
  match s with
  | [] => []
  | c :: rest =>
    if hp : pat ≠ [] ∧ pat.isPrefixOf (c :: rest) then
      rep ++ pyReplace ((c :: rest).drop pat.length) pat rep
    else
      c :: pyReplace rest pat rep
termination_by s.length
decreasing_by
  · have h1 : 0 < pat.length := List.length_pos.mpr hp.1
    simp only [List.length_drop, List.length_cons]
    omega
  · simp only [List.length_cons]
    omega

/-- Python `str.split(',')`, on explicit character lists. -/
def pySplitComma (s : List Char) : List (List Char) :=
  match s with
  | [] => [[]]
  | c :: rest =>
    if c = ',' then [] :: pySplitComma rest
    else
      match pySplitComma rest with
      | [] => [[c]]
      | h :: t => (c :: h) :: t

/-- Embedding of `Extinction.correctColor` (lines 846-865).  A string
`bands` is parsed by stripping `E(` and `)` and splitting on a comma
(the source never splits on a hyphen, although its docstring advertises
`'E(band1-band2)'`); a non-string `bands` is unpacked as a pair.  Then

    wl1 = bandwl[b1] if isinstance(b1,basestring) else b1
    wl2 = bandwl[b2] if isinstance(b1,basestring) else b2

— the second line tests `b1`, not `b2`, exactly as in the source.  When
that branch goes wrong, `wl2` is either looked up under a non-string key
(`KeyError`, a `LookupError`) or left as a string that the arithmetic
`colors - self(wl1) + self(wl2)` cannot consume (`TypeError` from
`1e4/...` inside the law's `f`). -/
def correctColor (A0 : ℝ) (f : ℝ → ℝ) (colors : ℝ) (bands : BandsArg) :
    Except PyError ℝ := do
  let (b1, b2) ← match bands with
    | .str s =>
      match pySplitComma (pyReplace (pyReplace s.data "E(".data "".data) ")".data "".data) with
      | [x, y] => Except.ok (BandOperand.bname ⟨x⟩, BandOperand.bname ⟨y⟩)
      | _ => Except.error (.valueError "unpacking bands string did not give 2 values")
    | .pair b1 b2 => Except.ok (b1, b2)
  let wl1 ← match b1 with
    | .bname n =>
      match bandwl n with
      | some w => Except.ok w
      | none => Except.error (.lookupError n)
    | .wl w => Except.ok w
  let wl2res : Except PyError BandOperand :=
    match b1 with
    | .bname _ =>
      match b2 with
      | .bname n =>
        match bandwl n with
        | some w => Except.ok (.wl w)
        | none => Except.error (.lookupError n)
      | .wl _ => Except.error (.lookupError "KeyError: non-string key")
    | .wl _ => Except.ok b2
  let wl2 ← wl2res
  match wl2 with
  | .wl w => Except.ok (colors - A0 * f wl1 + A0 * f w)
  | .bname _ => Except.error (.typeError "unsupported operand type for wavelength arithmetic")

/-- Embedding of `Extinction.correctSpectrum` (lines 867-887) for a law
with normalization `A0` and extinction function `f`
(`self(x) = A0 * f(x)`, line 817).  Returns the pair
(returned spectrum, final state of the spectrum passed in), so that the
default-copy behavior is expressible. -/
noncomputable def correctSpectrum (A0 : ℝ) (f : ℝ → ℝ) (spec : Spectrum)
    (newspec : Bool := true) : Spectrum × Spectrum :=
  let work := if newspec then spec.copy else spec
  let oldunit := work.unit
  let work := work.setUnit "wavelength-angstrom"
  let corr := work.x.map (fun l => (10 : ℝ) ^ (A0 * f l / 2.5))
  let work := { work with
    flux := List.zipWith (· * ·) work.flux corr
    err := List.zipWith (· * ·) work.err corr }
  let work := work.setUnit oldunit
  if newspec then (work, spec) else (work, work)

/-! ## `_EBmVExtinction` color-excess normalization (lines 1017-1038)

`lambdaV` is the external `phot.bandwl['V']` reference wavelength (it is
left as a parameter: the round-trip property is independent of its
value). -/

/-- Embedding of `_EBmVExtinction._setEBmV` (lines 1032-1034): the new
`A0` produced by assigning the `EBmV` property. -/
noncomputable def setEBmV (f : ℝ → ℝ) (Rv lambdaV val : ℝ) : ℝ :=
  Rv * val / f lambdaV

/-- Embedding of `_EBmVExtinction._getEBmV` (lines 1030-1031). -/
noncomputable def getEBmV (f : ℝ → ℝ) (Rv lambdaV A0 : ℝ) : ℝ :=
  A0 * f lambdaV / Rv

/-! ## `FMExtinction` — the Fitzpatrick-Massa template law (lines 1040-1072) -/

/-- The six Fitzpatrick-Massa shape constants plus the total-to-selective
ratio `Rv` fixed at construction (lines 1046-1054). -/
structure FMParams where
  C1 : ℝ
  C2 : ℝ
  C3 : ℝ
  C4 : ℝ
  x0 : ℝ
  gamma : ℝ
  Rv : ℝ

/-- The unmasked part of `FMExtinction.f` (lines 1057-1063) at
inverse-micron value `x`: the Lorentzian-like `D` (note the source's
`**-2` exponent) and the base curve `C1 + C2*x + C3*D`. -/
noncomputable def fmBase (p : FMParams) (x : ℝ) : ℝ :=
  p.C1 + p.C2 * x +
    p.C3 * (x * x * ((x * x - p.x0 * p.x0) ^ 2 + x * x * p.gamma * p.gamma) ^ (-2 : ℤ))

/-- The cubic correction added where `x >= 5.9` (lines 1066-1070). -/
noncomputable def fmCorrection (p : FMParams) (x : ℝ) : ℝ :=
  p.C4 * (0.5392 * (x - 5.9) ^ 2 + 0.05644 * (x - 5.9) ^ 3)

/-- Embedding of `FMExtinction.f` on a scalar wavelength (the
`np.isscalar` branch of lines 1056-1072): `x = 1e4/lamb`, base curve,
conditional cubic correction for `x >= 5.9`, then `+ Rv`. -/
noncomputable def fmF (p : FMParams) (lamb : ℝ) : ℝ :=
  let x := 1e4 / lamb
  let FMf := fmBase p x
  let FMf := if 5.9 ≤ x then FMf + fmCorrection p x else FMf
  FMf + p.Rv

/-- Embedding of `FMExtinction.f` on an array wavelength (the masked
branch of lines 1068-1070): the base curve is computed for the whole
array, then `FMf[C4m] += ...` adds the correction exactly at the indices
where `x >= 5.9`, and `Rv` is added to every element at the end. -/
noncomputable def fmFArr (p : FMParams) (lambs : List ℝ) : List ℝ :=
  let xs := lambs.map (fun l => 1e4 / l)
  let base := xs.map (fmBase p)
  let masked := List.zipWith
    (fun x v => if 5.9 ≤ x then v + fmCorrection p x else v) xs base
  masked.map (fun v => v + p.Rv)

/-- The constants of `LMCExtinction` (line 1128). -/
noncomputable def LMCExtinctionParams : FMParams :=
  ⟨-0.890, 0.998, 2.719, 0.400, 4.579, 0.934, 3.41⟩

/-- The constants of `SMCExtinction` (line 1135). -/
noncomputable def SMCExtinctionParams : FMParams :=
  ⟨-4.959, 2.264, 0.389, 0.461, 4.6, 1, 2.74⟩

/-! ## `CardelliExtinction` — the piecewise CCM law (lines 1074-1121)

The source fills `a` and `b` arrays by five boolean masks whose intervals
overlap at their endpoints; the masks are applied in the order infrared,
optical, near-UV-1, near-UV-2, far-UV, so at a shared endpoint the later
assignment wins.  The scalar functions below therefore test the regimes
in reverse order.  Outside `[0.3, 10]` the arrays would be uninitialized
memory, but the range guard raises first, so the final `else` branch is
unreachable through `cardelliF`. -/

/-- `np.polyval`: evaluate a polynomial given coefficients from highest
degree to lowest. -/
noncomputable def polyval (coeffs : List ℝ) (x : ℝ) : ℝ :=
  coeffs.foldl (fun acc c => acc * x + c) 0

/-- The CCM auxiliary curve `a(x)` (lines 1095-1113), `x` in inverse
microns. -/
noncomputable def ccmA (x : ℝ) : ℝ :=
  if 8 ≤ x then polyval [-0.070, 0.137, -0.628, -1.073] (x - 8)
  else if 5.9 ≤ x then 1.752 - 0.316 * x - 0.104 / ((x - 4.67) ^ 2 + 0.341)
  else if 3.3 ≤ x then
    1.752 - 0.316 * x - 0.104 / ((x - 4.67) ^ 2 + 0.341) +
      (-0.04473 * (x - 5.9) ^ 2 - 0.009779 * (x - 5.9) ^ 3)
  else if 1.1 ≤ x then
    polyval [0.32999, -0.7753, 0.01979, 0.72085, -0.02427, -0.50447, 0.17699, 1]
      (x - 1.82)
  else if 0.3 ≤ x then 0.574 * x ^ (1.61 : ℝ)
  else 0

/-- The CCM auxiliary curve `b(x)` (lines 1096-1114). -/
noncomputable def ccmB (x : ℝ) : ℝ :=
  if 8 ≤ x then polyval [0.374, -0.42, 4.257, 13.67] (x - 8)
  else if 5.9 ≤ x then -3.09 + 1.825 * x + 1.206 / ((x - 4.62) ^ 2 + 0.263)
  else if 3.3 ≤ x then
    -3.09 + 1.825 * x + 1.206 / ((x - 4.62) ^ 2 + 0.263) +
      (-0.2130 * (x - 5.9) ^ 2 - 0.1207 * (x - 5.9) ^ 3)
  else if 1.1 ≤ x then
    polyval [-2.09002, 5.3026, -0.62251, -5.38434, 1.07233, 2.28305, 1.41338, 0]
      (x - 1.82)
  else if 0.3 ≤ x then -0.527 * x ^ (1.61 : ℝ)
  else 0

/-- The error raised by `CardelliExtinction.f` on out-of-range input
(line 1084) — the `DomainError` of the spec's taxonomy, a Python
`ValueError` in the source. -/
def ccmDomainError : PyError :=
  .valueError "some wavelengths outside CCM 89 extinction curve range"

/-- Embedding of `CardelliExtinction.f` on a scalar wavelength
(lines 1078-1119): `x = 1e4/lamb`; any `x` with `x < 0.3` or `10 < x`
raises; otherwise the result is `a(x) + b(x)/Rv`. -/
noncomputable def cardelliF (Rv lamb : ℝ) : Except PyError ℝ :=
  let x := 1e4 / lamb
  if x < 0.3 ∨ 10 < x then .error ccmDomainError
  else .ok (ccmA x + ccmB x / Rv)

/-- Embedding of `CardelliExtinction.f` on an array of wavelengths: the
`any((x<0.3)|(10<x))` guard fails the whole call if any element is out of
range. -/
noncomputable def cardelliFArr (Rv : ℝ) (lambs : List ℝ) :
    Except PyError (List ℝ) :=
  let xs := lambs.map (fun l => 1e4 / l)
  if ∃ x ∈ xs, x < 0.3 ∨ 10 < x then .error ccmDomainError
  else .ok (xs.map (fun x => ccmA x + ccmB x / Rv))

/-! ## `Extinction.computeA0FromFluxRatio` (lines 902-963) -/

/-- `np.mean` of a list of reals. -/
noncomputable def npMean (l : List ℝ) : ℝ := l.sum / l.length

/-- `np.std`: the population standard deviation. -/
noncomputable def npStd (l : List ℝ) : ℝ :=
  Real.sqrt (npMean (l.map (fun v => (v - npMean l) ^ 2)))

/-- The `A0` slot of an `Extinction` instance: a scalar before
calibration, an array after (`filterfunc` may contract it back to a
scalar, which the model keeps as an array value). -/
inductive A0Val
  | scalar (a : ℝ)
  | arr (l : List ℝ)

/-- The mutable state of an `Extinction` instance that
`computeA0FromFluxRatio` touches. -/
structure ExtSt where
  A0 : A0Val

/-- One element of a sequence passed as `expected`: a named Balmer
transition string or a numeric ratio. -/
inductive ExpEntry
  | name (s : String)
  | num (r : ℝ)

/-- `isinstance(e, basestring)` for a sequence element. -/
def ExpEntry.isNameB : ExpEntry → Bool
  | .name _ => true
  | .num _ => false

/-- The numeric payload of a sequence element, if any. -/
def ExpEntry.toNum : ExpEntry → Option ℝ
  | .num r => some r
  | .name _ => none

/-- The `expected` argument: a single transition-name string, or a
sequence of names / numbers.  (A bare numeric scalar `expected` is not
representable: on such input the source's `expected[0]` on line 941
raises `TypeError` before anything else happens.) -/
inductive ExpectedArg
  | single (s : String)
  | seq (l : List ExpEntry)

/-- The `Extinction._Extinction__balmerratios` table (lines 902-913):
name -> (expected ratio, lambda1, lambda2). -/
noncomputable def balmerratios : List (String × ℝ × ℝ × ℝ) :=
  [("Hab", 2.86, 6562.82, 4861.33),
   ("Hag", 6.16, 6562.82, 4340.46),
   ("Had", 11.21, 6562.82, 4101.74),
   ("Hae", 18.16, 6562.82, 3970.07),
   ("Hbg", 2.15, 4861.33, 4340.46),
   ("Hbd", 3.91, 4861.33, 4101.74),
   ("Hbe", 6.33, 4861.33, 3970.07),
   ("Hgd", 1.82, 4340.46, 4101.74),
   ("Hge", 2.95, 4340.46, 3970.07),
   ("Hde", 1.62, 4101.74, 3970.07)]

/-- Dictionary lookup in the Balmer table. -/
noncomputable def balmerLookup (s : String) : Option (ℝ × ℝ × ℝ) :=
  (balmerratios.find? (fun e => e.1 = s)).map (·.2)

/-- Line 958 of the source for one measurement `r` against expected ratio
`r0`: `-2.5*np.log10(R/R0)/(self.f(lambda1)-self.f(lambda2))`. -/
noncomputable def a0Formula (f : ℝ → ℝ) (r0 l1 l2 r : ℝ) : ℝ :=
  -2.5 * Real.logb 10 (r / r0) / (f l1 - f l2)

/-- The branchy first half of `computeA0FromFluxRatio` (lines 936-958):
produces the raw per-measurement `A0` array, or the exception the source
raises, paired with the state current at that moment (the state is never
touched before line 962, so every error carries `st` unchanged).

Source-to-model notes, branch by branch:
* `expected` a string (lines 936-940): `R = measured`, table lookup
  (a missing key raises `KeyError`), elementwise formula with the table's
  scalar ratio and wavelengths.  `lambda1`/`lambda2` arguments are
  ignored (overwritten).
* `expected[0]` a string (lines 941-950): if not all entries are strings,
  `ValueError`; otherwise the source builds `R0,lambda1,lambda2` but the
  local `R` is never assigned on this path, so line 958 raises
  `UnboundLocalError` (a `NameError`).
* otherwise (lines 951-956): `if lambda1 and lambda2` — Python truthiness,
  so a missing *or zero* wavelength raises the `ValueError`; then
  `np.array(expected)` on a list that still contains a string coerces the
  whole array to strings and `R/R0` raises `TypeError`; with all-numeric
  entries `R/R0` is elementwise and requires equal lengths (numpy
  broadcasting beyond equal shapes is not modelled). -/
noncomputable def computeA0raw (f : ℝ → ℝ) (st : ExtSt) (measured : List ℝ)
    (expected : ExpectedArg) (lambda1 lambda2 : Option ℝ) :
    Except (PyError × ExtSt) (List ℝ) :=
  match expected with
  | .single s =>
    match balmerLookup s with
    | none => .error (.lookupError s, st)
    | some (r0, l1, l2) => .ok (measured.map (a0Formula f r0 l1 l2))
  | .seq [] => .error (.indexError "list index out of range", st)
  | .seq (e :: rest) =>
    match e with
    | .name _ =>
      if (e :: rest).all ExpEntry.isNameB then
        .error (.nameError "local variable 'R' referenced before assignment", st)
      else
        .error (.valueError "expected must be only transitions or only numerical", st)
    | .num _ =>
      match lambda1, lambda2 with
      | some l1, some l2 =>
        if l1 = 0 ∨ l2 = 0 then
          .error (.valueError "need to provide wavelengths if not specifying transitions", st)
        else if (e :: rest).any ExpEntry.isNameB then
          .error (.typeError "unsupported operand type(s) for /", st)
        else
          if measured.length = ((e :: rest).filterMap ExpEntry.toNum).length then
            .ok (List.zipWith (fun r r0 => a0Formula f r0 l1 l2 r) measured
              ((e :: rest).filterMap ExpEntry.toNum))
          else
            .error (.valueError "operands could not be broadcast together", st)
      | _, _ =>
        .error (.valueError "need to provide wavelengths if not specifying transitions", st)

/-- Embedding of `Extinction.computeA0FromFluxRatio` (lines 914-963):
after the raw array is produced, `filterfunc` (default: identity, lines
960-961) is applied, the result is stored into `self.A0` (line 962), and
`(A0, np.std(A0))` is returned. -/
noncomputable def computeA0FromFluxRatio (f : ℝ → ℝ) (st : ExtSt)
    (measured : List ℝ) (expected : ExpectedArg)
    (lambda1 lambda2 : Option ℝ) (filterfunc : Option (List ℝ → List ℝ)) :
    Except (PyError × ExtSt) ((List ℝ × ℝ) × ExtSt) :=
  match computeA0raw f st measured expected lambda1 lambda2 with
  | .error e => .error e
  | .ok A0raw =>
    let A0 := (filterfunc.getD id) A0raw
    .ok ((A0, npStd A0), { st with A0 := A0Val.arr A0 })

/-! ## Theorems -/

/-- C10: the constructor's validation of the optional shape-function
argument is inverted — every callable argument raises
`ValueError('function must be a callable')`, while every non-callable
non-None argument is silently stored as the instance's `f`. -/
theorem ExtinctionInit_inverted (g : ℝ → ℝ) (v : String) (A0 : ℝ) :
    ExtinctionInit (some (.callable g)) A0
        = .error (.valueError "function must be a callable")
    ∧ ExtinctionInit (some (.notCallable v)) A0
        = .ok ⟨some (.notCallable v), A0⟩ :=
  ⟨rfl, rfl⟩

/-- C3 (code bug): `extract()` never returns the "nothing ready" value —
for every buffer state, including the fresh (`none`) state and the state
right after `clear()`, `_plExtract` raises `TypeError` because line 996
computes `len(out < 1)` instead of `len(out) < 1`. -/
theorem plExtract_always_raises (buf : Option PLBuffer) :
    plExtract buf = .error (.typeError "object of type 'bool' has no len()") :=
  rfl

/-- C6 (code bug): when the correction of the dequeued entry raises,
`_plProcess`'s handler evaluates the undefined name `spec`, so a
`NameError` propagates and the popped entry is dropped instead of being
re-enqueued at the front; when the correction succeeds the corrected
spectrum is appended to the ready queue. -/
theorem plProcess_code_bug :
    plProcess (fun _ => .error (.valueError "domain"))
        (some ⟨[("spec", ⟨[], [], [], "unit"⟩)], []⟩)
      = .error (.nameError "global name 'spec' is not defined", some ⟨[], []⟩)
    ∧ plProcess (fun s => .ok s)
        (some ⟨[("spec", ⟨[], [], [], "unit"⟩)], []⟩)
      = .ok (some ⟨[], [⟨[], [], [], "unit"⟩]⟩) :=
  ⟨rfl, rfl⟩

/-- C5: setting the `EBmV` property (which recomputes
`A0 = Rv*c/f(lambdaV)`) and reading it back (`A0*f(lambdaV)/Rv`) returns
the original value exactly, for every law whose shape is nonzero at the
reference wavelength and every nonzero `Rv`. -/
theorem EBmV_roundtrip (f : ℝ → ℝ) (Rv lambdaV c : ℝ)
    (hf : f lambdaV ≠ 0) (hRv : Rv ≠ 0) :
    getEBmV f Rv lambdaV (setEBmV f Rv lambdaV c) = c := by
  unfold getEBmV setEBmV
  field_simp

/-- Witness for C5 at `f = id`, `Rv = 3.1`, `lambdaV = 5510`, `c = 2`. -/
theorem EBmV_roundtrip_witness :
    getEBmV (fun l => l) 3.1 5510 (setEBmV (fun l => l) 3.1 5510 2) = 2 :=
  EBmV_roundtrip (fun l => l) 3.1 5510 2 (by norm_num) (by norm_num)

/-- C9: `correctSpectrum` multiplies flux and error elementwise by
`10^(A0*f(lambda)/2.5)` with the wavelengths read in angstroms, restores
the original unit tag, and by default returns a corrected copy while the
passed-in spectrum is left unchanged; with `newspec = False` the
passed-in spectrum itself becomes the corrected one. -/
theorem correctSpectrum_spec (A0 : ℝ) (f : ℝ → ℝ) (s : Spectrum) :
    (correctSpectrum A0 f s).1.flux
        = List.zipWith (· * ·) s.flux
            (s.xAng.map (fun l => (10 : ℝ) ^ (A0 * f l / 2.5)))
    ∧ (correctSpectrum A0 f s).1.err
        = List.zipWith (· * ·) s.err
            (s.xAng.map (fun l => (10 : ℝ) ^ (A0 * f l / 2.5)))
    ∧ (correctSpectrum A0 f s).1.unit = s.unit
    ∧ (correctSpectrum A0 f s).2 = s
    ∧ (correctSpectrum A0 f s false).2 = (correctSpectrum A0 f s false).1 :=
  ⟨rfl, rfl, rfl, rfl, rfl⟩

/-- C2: for the Cardelli/CCM law, any input whose inverse-micron value
`x = 1e4/lamb` is outside `[0.3, 10]` raises the domain error, the
boundary values `x = 0.3` and `x = 10` succeed and return
`a(x) + b(x)/Rv`, and an array input fails as a whole as soon as one
element is out of range. -/
theorem cardelliF_domain (Rv lamb : ℝ) (lambs : List ℝ) :
    (1e4 / lamb < 0.3 ∨ 10 < 1e4 / lamb →
      cardelliF Rv lamb = .error ccmDomainError)
    ∧ (1e4 / lamb = 0.3 ∨ 1e4 / lamb = 10 →
      cardelliF Rv lamb = .ok (ccmA (1e4 / lamb) + ccmB (1e4 / lamb) / Rv))
    ∧ ((∃ l ∈ lambs, 1e4 / l < 0.3 ∨ 10 < 1e4 / l) →
      cardelliFArr Rv lambs = .error ccmDomainError) := by
  refine ⟨fun h => ?_, fun h => ?_, fun h => ?_⟩
  · unfold cardelliF
    exact if_pos h
  · unfold cardelliF
    refine if_neg ?_
    rcases h with h | h <;> rw [h] <;> norm_num
  · unfold cardelliFArr
    refine if_pos ?_
    obtain ⟨l, hl, hx⟩ := h
    exact ⟨1e4 / l, List.mem_map_of_mem _ hl, hx⟩

/-- Witness for C2: `x = 11` raises, the boundary `x = 10`
(`lamb = 1000`) succeeds, and an array containing the `x = 11` element
fails as a whole. -/
theorem cardelliF_domain_witness :
    cardelliF 3.1 (1e4 / 11) = .error ccmDomainError
    ∧ cardelliF 3.1 1000 = .ok (ccmA (1e4 / 1000) + ccmB (1e4 / 1000) / 3.1)
    ∧ cardelliFArr 3.1 [1e4 / 11, 1000] = .error ccmDomainError :=
  ⟨(cardelliF_domain 3.1 (1e4 / 11) []).1 (Or.inr (by norm_num)),
   (cardelliF_domain 3.1 1000 []).2.1 (Or.inr (by norm_num)),
   (cardelliF_domain 3.1 0 [1e4 / 11, 1000]).2.2
     ⟨1e4 / 11, by simp, Or.inr (by norm_num)⟩⟩

/-- `FMExtinction.f` on a cons cell: the masked array computation peels
off its head. -/
theorem fmFArr_cons (p : FMParams) (a : ℝ) (t : List ℝ) :
    fmFArr p (a :: t) = fmF p a :: fmFArr p t := rfl

/-- C8: the Fitzpatrick-Massa shape adds the cubic correction exactly for
the elements with `x = 1e4/lamb >= 5.9` and adds `Rv` at the end, and the
masked array computation agrees elementwise with the scalar computation:
`fmFArr p lambs = lambs.map (fmF p)` for every array, mixed regimes
included. -/
theorem fmF_vectorized (p : FMParams) (lambs : List ℝ) (lamb : ℝ) :
    fmFArr p lambs = lambs.map (fmF p)
    ∧ (5.9 ≤ 1e4 / lamb →
        fmF p lamb = fmBase p (1e4 / lamb) + fmCorrection p (1e4 / lamb) + p.Rv)
    ∧ (1e4 / lamb < 5.9 →
        fmF p lamb = fmBase p (1e4 / lamb) + p.Rv) := by
  refine ⟨?_, fun h => ?_, fun h => ?_⟩
  · induction lambs with
    | nil => rfl
    | cons a t ih => rw [fmFArr_cons, List.map_cons, ih]
  · simp only [fmF]
    rw [if_pos h]
  · simp only [fmF]
    rw [if_neg (not_le.mpr h)]

/-- Witness for C8 with the `LMCExtinction` constants: an array spanning
both sides of `x = 5.9` (`x = 8` and `x = 1`) agrees with the scalar
path, and each scalar branch is taken as claimed. -/
theorem fmF_vectorized_witness :
    fmFArr LMCExtinctionParams [1250, 1e4]
        = [1250, 1e4].map (fmF LMCExtinctionParams)
    ∧ fmF LMCExtinctionParams 1250
        = fmBase LMCExtinctionParams (1e4 / 1250)
            + fmCorrection LMCExtinctionParams (1e4 / 1250)
            + LMCExtinctionParams.Rv
    ∧ fmF LMCExtinctionParams 1e4
        = fmBase LMCExtinctionParams (1e4 / 1e4) + LMCExtinctionParams.Rv :=
  ⟨(fmF_vectorized LMCExtinctionParams [1250, 1e4] 0).1,
   (fmF_vectorized LMCExtinctionParams [] 1250).2.1 (by norm_num),
   (fmF_vectorized LMCExtinctionParams [] 1e4).2.2 (by norm_num)⟩

/-- C4 (code bug): the docstring-advertised hyphen form `"E(B-V)"` does
not parse (the source splits on a comma only, so unpacking into two names
fails), and in the tuple form the second band is resolved by testing the
*first* band's type, so `(wavelength, name)` reaches the arithmetic with
a string and raises `TypeError`; the comma form `"E(B,V)"` works and
yields `color - evaluate(l1) + evaluate(l2)`. -/
theorem correctColor_code_bug :
    correctColor 1 (fun l => l) 0.5 (.str "E(B-V)")
        = .error (.valueError "unpacking bands string did not give 2 values")
    ∧ correctColor 1 (fun l => l) 0.5 (.pair (.wl 5510) (.bname "V"))
        = .error (.typeError "unsupported operand type for wavelength arithmetic")
    ∧ correctColor 1 (fun l => l) 0.5 (.str "E(B,V)")
        = .ok (0.5 - 1 * 4450 + 1 * 5510) := by
  refine ⟨?_, rfl, ?_⟩ <;>
  · simp [correctColor, pyReplace, pySplitComma]
    rfl

/-- A list of numeric entries contains no name entry. -/
theorem any_isNameB_map_num (l : List ℝ) :
    (l.map ExpEntry.num).any ExpEntry.isNameB = false := by
  induction l with
  | nil => rfl
  | cons a t ih => simp [ExpEntry.isNameB, ih]

/-- Extracting the numeric payloads of a list of numeric entries gives
the list back. -/
theorem filterMap_toNum_map_num (l : List ℝ) :
    (l.map ExpEntry.num).filterMap ExpEntry.toNum = l := by
  induction l with
  | nil => rfl
  | cons a t ih => simp [ExpEntry.toNum, ih]

/-- The raw-A0 stage never touches the state: every error it produces
carries the state it was called with. -/
theorem computeA0raw_error_st (f : ℝ → ℝ) (st : ExtSt) (measured : List ℝ)
    (expected : ExpectedArg) (lambda1 lambda2 : Option ℝ) (e : PyError)
    (st' : ExtSt)
    (h : computeA0raw f st measured expected lambda1 lambda2 = .error (e, st')) :
    st' = st := by
  unfold computeA0raw at h
  repeat' split at h
  all_goals simp_all

/-- C1: for a wavelength pair resolved from a named case-B transition key
or from explicit numeric ratios and wavelengths,
`computeA0FromFluxRatio` computes
`A0_i = -2.5*log10(R_i/R0_i)/(f(l1)-f(l2))` per measurement, applies the
filter function (default: identity), stores the filtered array as the new
normalization and returns it together with its standard deviation; and
feeding `measured = R0*10^(-0.4*(f(l1)-f(l2))*2)` recovers the
normalization `2.0` exactly. -/
theorem computeA0FromFluxRatio_spec (f : ℝ → ℝ) (st : ExtSt)
    (measured : List ℝ) (s : String) (r0 l1 l2 : ℝ) (ff : List ℝ → List ℝ)
    (n : ℕ) (hlook : balmerLookup s = some (r0, l1, l2)) :
    (computeA0FromFluxRatio f st measured (.single s) none none (some ff)
      = .ok ((ff (measured.map (a0Formula f r0 l1 l2)),
              npStd (ff (measured.map (a0Formula f r0 l1 l2)))),
             ⟨A0Val.arr (ff (measured.map (a0Formula f r0 l1 l2)))⟩))
    ∧ (computeA0FromFluxRatio f st measured (.single s) none none none
      = .ok ((measured.map (a0Formula f r0 l1 l2),
              npStd (measured.map (a0Formula f r0 l1 l2))),
             ⟨A0Val.arr (measured.map (a0Formula f r0 l1 l2))⟩))
    ∧ (∀ (r0h : ℝ) (r0t : List ℝ), l1 ≠ 0 → l2 ≠ 0 →
        measured.length = (r0h :: r0t).length →
        computeA0FromFluxRatio f st measured
            (.seq ((r0h :: r0t).map ExpEntry.num)) (some l1) (some l2) none
          = .ok ((List.zipWith (fun r rr => a0Formula f rr l1 l2 r) measured (r0h :: r0t),
                  npStd (List.zipWith (fun r rr => a0Formula f rr l1 l2 r) measured (r0h :: r0t))),
                 ⟨A0Val.arr (List.zipWith (fun r rr => a0Formula f rr l1 l2 r) measured (r0h :: r0t))⟩))
    ∧ (f l1 ≠ f l2 → r0 ≠ 0 →
        measured = List.replicate n (r0 * (10 : ℝ) ^ (-(0.4 : ℝ) * (f l1 - f l2) * 2)) →
        computeA0FromFluxRatio f st measured (.single s) none none none
          = .ok ((List.replicate n 2, npStd (List.replicate n 2)),
                 ⟨A0Val.arr (List.replicate n 2)⟩)) := by
  have hraw : computeA0raw f st measured (.single s) none none
      = .ok (measured.map (a0Formula f r0 l1 l2)) := by
    simp only [computeA0raw]
    rw [hlook]
  refine ⟨?_, ?_, ?_, ?_⟩
  · unfold computeA0FromFluxRatio
    rw [hraw]
    rfl
  · unfold computeA0FromFluxRatio
    rw [hraw]
    rfl
  · intro r0h r0t h1 h2 hlen
    have hraw2 : computeA0raw f st measured
        (.seq ((r0h :: r0t).map ExpEntry.num)) (some l1) (some l2)
        = .ok (List.zipWith (fun r rr => a0Formula f rr l1 l2 r) measured (r0h :: r0t)) := by
      simp only [computeA0raw, List.map_cons]
      rw [if_neg (by tauto),
        if_neg (by simp [any_isNameB_map_num, List.any_cons, ExpEntry.isNameB])]
      rw [show (ExpEntry.num r0h :: r0t.map ExpEntry.num).filterMap ExpEntry.toNum
            = r0h :: r0t by
          simpa [ExpEntry.toNum] using filterMap_toNum_map_num r0t]
      rw [if_pos hlen]
    unfold computeA0FromFluxRatio
    rw [hraw2]
    rfl
  · intro hne hr0 hmeas
    have h2 : a0Formula f r0 l1 l2
        (r0 * (10 : ℝ) ^ (-(0.4 : ℝ) * (f l1 - f l2) * 2)) = 2 := by
      have hd : f l1 - f l2 ≠ 0 := sub_ne_zero.mpr hne
      unfold a0Formula
      rw [mul_div_cancel_left₀ _ hr0,
        Real.logb_rpow (by norm_num) (by norm_num)]
      field_simp
      ring
    unfold computeA0FromFluxRatio
    rw [hmeas] at hraw
    rw [hmeas, hraw]
    simp only [List.map_replicate, h2]
    rfl

/-- Witness for C1: the `"Hab"` Balmer key on a law with identity shape
recovers the synthesized normalization 2. -/
theorem computeA0FromFluxRatio_spec_witness :
    computeA0FromFluxRatio (fun l => l) ⟨A0Val.scalar 1⟩
        (List.replicate 1 (2.86 * (10 : ℝ) ^ (-(0.4 : ℝ) * ((6562.82 : ℝ) - 4861.33) * 2)))
        (.single "Hab") none none none
      = .ok ((List.replicate 1 2, npStd (List.replicate 1 2)),
             ⟨A0Val.arr (List.replicate 1 2)⟩) :=
  (computeA0FromFluxRatio_spec (fun l => l) ⟨A0Val.scalar 1⟩
      (List.replicate 1 (2.86 * (10 : ℝ) ^ (-(0.4 : ℝ) * ((6562.82 : ℝ) - 4861.33) * 2)))
      "Hab" 2.86 6562.82 4861.33 id 1 rfl).2.2.2
    (by norm_num) (by norm_num) rfl

/-- C7 counterexample: an expected sequence that mixes a numeric entry
first with a named transition, with wavelengths supplied, raises
`TypeError` (numpy coerces the mixed array to strings and the division
fails) — not a ValueError-class error as the claim states.  The state is
still untouched. -/
theorem computeA0_mixed_typeError_cex :
    computeA0FromFluxRatio (fun l => l) ⟨A0Val.scalar 1⟩ [1]
        (.seq [.num 2.86, .name "Hab"]) (some 6562.82) (some 4861.33) none
      = .error (.typeError "unsupported operand type(s) for /", ⟨A0Val.scalar 1⟩)
    ∧ (PyError.typeError "unsupported operand type(s) for /").isValueErrorClass
      = false := by
  refine ⟨?_, rfl⟩
  unfold computeA0FromFluxRatio
  simp only [computeA0raw]
  rw [if_neg (by norm_num), if_pos (by rfl)]

/-- C7 (amended): a mixed expected sequence whose first entry is a named
transition raises `ValueError('expected must be only transitions or only
numerical')`; numeric expected ratios without wavelengths raise
`ValueError('need to provide wavelengths...')`; a mixed sequence whose
first entry is numeric, with wavelengths supplied, raises `TypeError`
instead; and on every erroneous call whatsoever the normalization slot is
exactly what it was before the call (all-or-nothing calibration). -/
theorem computeA0_allOrNothing (f : ℝ → ℝ) (st : ExtSt) (measured : List ℝ)
    (s : String) (r0 : ℝ) (rest rest2 : List ExpEntry)
    (ff : Option (List ℝ → List ℝ))
    (hmix : (ExpEntry.name s :: rest).all ExpEntry.isNameB = false) :
    computeA0FromFluxRatio f st measured (.seq (.name s :: rest)) none none ff
      = .error (.valueError "expected must be only transitions or only numerical", st)
    ∧ computeA0FromFluxRatio f st measured (.seq (.num r0 :: rest2)) none none ff
      = .error (.valueError "need to provide wavelengths if not specifying transitions", st)
    ∧ ∀ (expected : ExpectedArg) (l1 l2 : Option ℝ) (e : PyError) (st' : ExtSt),
        computeA0FromFluxRatio f st measured expected l1 l2 ff = .error (e, st') →
        st' = st := by
  refine ⟨?_, ?_, ?_⟩
  · unfold computeA0FromFluxRatio
    simp only [computeA0raw]
    rw [if_neg (by simp_all)]
  · unfold computeA0FromFluxRatio
    simp only [computeA0raw]
  · intro expected l1 l2 e st' h
    unfold computeA0FromFluxRatio at h
    rcases hr : computeA0raw f st measured expected l1 l2 with p | v
    · rw [hr] at h
      obtain ⟨rfl, rfl⟩ : e = p.1 ∧ st' = p.2 := by
        simpa [Prod.ext_iff] using h.symm
      exact computeA0raw_error_st f st measured expected l1 l2 _ _
        (by rw [hr])
    · rw [hr] at h
      simp at h

/-- Witness for C7's amended theorem at a concrete mixed sequence. -/
theorem computeA0_allOrNothing_witness :
    computeA0FromFluxRatio (fun l => l) ⟨A0Val.scalar 1⟩ [1]
        (.seq [.name "Hab", .num 2.86]) none none none
      = .error (.valueError "expected must be only transitions or only numerical",
                ⟨A0Val.scalar 1⟩) :=
  (computeA0_allOrNothing (fun l => l) ⟨A0Val.scalar 1⟩ [1] "Hab" 0
    [.num 2.86] [] none rfl).1

end Obstools
